import Mathlib

/-!
Verification development for `sortinfolder.py` (ulbi/SortImages).

The script walks a source tree, filters to `.jpg` files larger than 100 KiB,
resolves each file's capture date (EXIF `DateTimeOriginal` with a fallback to
the file's creation time), copies the file into `output/YYYY/MM/DD`, rotates
the copy according to its EXIF orientation value, and appends a
`RelativePath:<path>` line to the copy's EXIF UserComment.

The shallow embedding below models the filesystem as an association list of
path/file-data pairs together with a set of existing folders and a set of
destination paths at which the OS refuses writes (modelling `OSError`s such as
permission-denied or disk-full raised by `shutil.copy2`).  Python exceptions
are modelled with an explicit `Except PyExn` channel; a Python `try/except`
is a `match` that recovers from the error channel.  Thread scheduling for the
directory-creation race is modelled by explicit interleavings of the atomic
OS calls `os.path.exists` and `os.makedirs`.
-/

set_option autoImplicit false

deriving instance DecidableEq for Except

namespace SortImages

/-- Python exception classes that occur in the script's control flow. -/
inductive PyExn where
  | typeError
  | keyError
  | attributeError
  | indexError
  | valueError
  | osError
  | fileNotFoundError
  | fileExistsError
  | sameFileError
  deriving DecidableEq, Repr

/-- A `datetime.datetime` value (the fields the script uses). -/
structure PyDateTime where
  year : Nat
  month : Nat
  day : Nat
  hour : Nat
  minute : Nat
  second : Nat
  deriving DecidableEq, Repr

/-- The PIL `_getexif()` dictionary, reduced to the single key the script
reads (the `Orientation` tag, 0x0112). `none` for the key means the tag is
missing from the dictionary. -/
structure ExifDict where
  orientation : Option Nat
  deriving DecidableEq, Repr

/-- The on-disk content and metadata of one file.  `exifDate` is the raw
`EXIF DateTimeOriginal` string as read by `exifread` (if the tag exists);
`exif` is the PIL `_getexif()` dictionary (`none` models `_getexif()`
returning `None`, i.e. the image carries no EXIF dictionary at all);
`truncated` models an image whose pixel data fails to fully load
(`img.load()` raising `OSError`); `rotation` is the net rotation in degrees
applied to the pixel data so far; `comment` is the EXIF UserComment byte
string. -/
structure FileData where
  size : Nat
  ctime : PyDateTime
  exifDate : Option String
  exif : Option ExifDict
  truncated : Bool
  rotation : Nat
  comment : String
  deriving DecidableEq, Repr

/-- The filesystem state: files as an association list (the head entry
shadows older entries at the same path, so consing models an in-place
overwrite), the set of existing directories, and the set of destination
paths at which the OS refuses writes (modelling `OSError` from
`shutil.copy2`, e.g. permission denied or disk full). -/
structure FS where
  files : List (String × FileData)
  folders : List String
  denied : List String
  deriving DecidableEq, Repr

/-- First-match association-list lookup (the semantics of reading a path). -/
def lookupAssoc : List (String × FileData) → String → Option FileData
  | [], _ => none
  | e :: rest, p => if p = e.1 then some e.2 else lookupAssoc rest p

/-- Read the file at path `p`. -/
def lookupFile (fs : FS) (p : String) : Option FileData :=
  lookupAssoc fs.files p

/-- Write file data at path `p` (creating or overwriting). -/
def setFile (fs : FS) (p : String) (fd : FileData) : FS :=
  ⟨(p, fd) :: fs.files, fs.folders, fs.denied⟩

/-- `pre` is a list prefix of `s` (decidable, structural). -/
def chPrefix : List Char → List Char → Bool
  | [], _ => true
  | _ :: _, [] => false
  | a :: as, b :: bs => a == b && chPrefix as bs

/-- `s.startswith(pre)` on strings. -/
def strHasPrefix (s pre : String) : Bool :=
  chPrefix pre.data s.data

/-- `s.endswith(suf)` on strings. -/
def strHasSuffix (s suf : String) : Bool :=
  chPrefix suf.data.reverse s.data.reverse

/-- `s.lower()` (ASCII case folding suffices for the `.jpg` check). -/
def lowerStr (s : String) : String :=
  ⟨s.data.map Char.toLower⟩

/-- `file_path.lower().endswith('.jpg')`, the filter repeated at lines 127
and 157 of the script. -/
def endsJpgLower (p : String) : Bool :=
  strHasSuffix (lowerStr p) ".jpg"

/-- Split a character list on a separator character; `splitOnChar c s`
never returns `[]`. -/
def splitOnChar (c : Char) : List Char → List (List Char)
  | [] => [[]]
  | a :: rest =>
    if a = c then [] :: splitOnChar c rest
    else
      match splitOnChar c rest with
      | [] => [[a]]
      | g :: gs => (a :: g) :: gs

/-- Join character-list components with `'/'` separators. -/
def joinSlash : List (List Char) → List Char
  | [] => []
  | [l] => l
  | l :: rest => l ++ '/' :: joinSlash rest

/-- `os.path.basename`: the component after the last `'/'`. -/
def basename (p : String) : String :=
  ⟨(splitOnChar '/' p.data).getLastD p.data⟩

/-- `os.path.dirname`: everything before the last `'/'` (empty for a bare
file name). -/
def dirname (p : String) : String :=
  ⟨joinSlash ((splitOnChar '/' p.data).dropLast)⟩

/-- `os.path.relpath p base`.  In the pipeline `p` is always `base` itself or
a path below it (the walked files live under `basepath`), which are the two
modelled branches; for unrelated paths Python would build a `..` chain, which
the pipeline never exercises, and the argument is returned unchanged. -/
def relpath (p base : String) : String :=
  if p = base then "."
  else if strHasPrefix p (base ++ "/") then ⟨p.data.drop (base.data.length + 1)⟩
  else p

/-- `os.path.exists`: true if a directory or a file exists at the path. -/
def os_path_exists (fs : FS) (p : String) : Bool :=
  fs.folders.contains p || (lookupAssoc fs.files p).isSome

/-- `os.makedirs(p)` (without `exist_ok`): raises `FileExistsError` if the
leaf already exists, otherwise creates the directory. -/
def os_makedirs (fs : FS) (p : String) : Except PyExn FS :=
  if os_path_exists fs p then Except.error PyExn.fileExistsError
  else Except.ok ⟨fs.files, p :: fs.folders, fs.denied⟩

/-- The destination-folder-creation step, lines 161-163 of the script:
`if not os.path.exists(new_folder): os.makedirs(new_folder)`. -/
def createFolderStep (fs : FS) (p : String) : Except PyExn FS :=
  if os_path_exists fs p then Except.ok fs
  else os_makedirs fs p

/-- `shutil.copy2(src, dst)`: raises `SameFileError` when the two paths are
the same file, `FileNotFoundError` when the source is missing, an `OSError`
when the OS refuses the write at `dst`, and otherwise duplicates the file's
bytes and metadata at `dst`. -/
def shutil_copy2 (fs : FS) (src dst : String) : Except PyExn FS :=
  if src = dst then Except.error PyExn.sameFileError
  else
    match lookupAssoc fs.files src with
    | none => Except.error PyExn.fileNotFoundError
    | some fd =>
      if fs.denied.contains dst then Except.error PyExn.osError
      else Except.ok (setFile fs dst fd)

/-- All characters are ASCII digits. -/
def allDigits (l : List Char) : Bool :=
  l.all fun c => '0' ≤ c && c ≤ '9'

/-- Decimal value of a digit list. -/
def digitsToNat (l : List Char) : Nat :=
  l.foldl (fun acc c => acc * 10 + (c.toNat - 48)) 0

/-- One `strptime` field for `%m`, `%d`, `%H`, `%M`, `%S`: one or two
digits. -/
def parseField (l : List Char) : Option Nat :=
  if l.length = 0 ∨ 2 < l.length ∨ allDigits l = false then none
  else some (digitsToNat l)

/-- The `strptime` field for `%Y`: exactly four digits. -/
def parseYear (l : List Char) : Option Nat :=
  if l.length = 4 ∧ allDigits l = true then some (digitsToNat l)
  else none

/-- Leap year in the Gregorian calendar. -/
def isLeap (y : Nat) : Bool :=
  (y % 4 = 0 && y % 100 ≠ 0) || y % 400 = 0

/-- Days in a month, as validated by the `datetime` constructor. -/
def daysInMonth (y m : Nat) : Nat :=
  if m = 2 then (if isLeap y then 29 else 28)
  else if m = 4 ∨ m = 6 ∨ m = 9 ∨ m = 11 then 30
  else 31

/-- `datetime.strptime(s, '%Y:%m:%d %H:%M:%S')`: four-digit year, one- or
two-digit month/day/hour/minute/second, with the range checks the regex and
the `datetime` constructor perform; any mismatch raises `ValueError`. -/
def strptimeExif (s : String) : Except PyExn PyDateTime :=
  match splitOnChar ' ' s.data with
  | [dPart, tPart] =>
    match splitOnChar ':' dPart, splitOnChar ':' tPart with
    | [ys, ms, ds], [hs, ns, ss] =>
      match parseYear ys, parseField ms, parseField ds,
            parseField hs, parseField ns, parseField ss with
      | some y, some mo, some dd, some hh, some mi, some sec =>
        if 1 ≤ y ∧ 1 ≤ mo ∧ mo ≤ 12 ∧ 1 ≤ dd ∧ dd ≤ daysInMonth y mo ∧
           hh ≤ 23 ∧ mi ≤ 59 ∧ sec ≤ 59 then
          Except.ok ⟨y, mo, dd, hh, mi, sec⟩
        else Except.error PyExn.valueError
      | _, _, _, _, _, _ => Except.error PyExn.valueError
    | _, _ => Except.error PyExn.valueError
  | _ => Except.error PyExn.valueError

/-- Two-digit zero padding, as `%m`/`%d` produce. -/
def pad2 (n : Nat) : String :=
  if n < 10 then "0" ++ toString n else toString n

/-- `date_taken.strftime("%Y/%m/%d")`. -/
def strftimeYMD (d : PyDateTime) : String :=
  toString d.year ++ "/" ++ pad2 d.month ++ "/" ++ pad2 d.day

/-- Net effect of `img.rotate(deg, expand=True)` followed by `img.save`:
the pixel data's accumulated rotation changes, the rest of the file record
is carried over. -/
def applyRotation (fd : FileData) (deg : Nat) : FileData :=
  ⟨fd.size, fd.ctime, fd.exifDate, fd.exif, fd.truncated,
   (fd.rotation + deg) % 360, fd.comment⟩

/-- Replace the EXIF UserComment (the effect of `piexif.insert`). -/
def setCommentFD (fd : FileData) (c : String) : FileData :=
  ⟨fd.size, fd.ctime, fd.exifDate, fd.exif, fd.truncated, fd.rotation, c⟩

/-- The body of `get_exif_orientation`'s `try` block (lines 37-41): the loop
over `ExifTags.TAGS` always finds the constant `Orientation` key, then
`img._getexif()[orientation]` is evaluated.  When `_getexif()` returns
`None` (no EXIF dictionary) the subscript raises `TypeError`; when the
dictionary lacks the key it raises `KeyError`. -/
def exifOrientationLookup (fd : FileData) : Except PyExn Nat :=
  match fd.exif with
  | none => Except.error PyExn.typeError
  | some ed =>
    match ed.orientation with
    | none => Except.error PyExn.keyError
    | some v => Except.ok v

/-- The exception classes named by the handler at line 43:
`except (AttributeError, KeyError, IndexError)`. -/
def innerHandled : PyExn → Bool
  | PyExn.attributeError => true
  | PyExn.keyError => true
  | PyExn.indexError => true
  | _ => false

/-- `get_exif_orientation` (lines 26-45): returns the orientation value, or
`None` when the handled exceptions fire; any other exception (notably the
`TypeError` from a missing EXIF dictionary) escapes. -/
def get_exif_orientation (fd : FileData) : Except PyExn (Option Nat) :=
  match exifOrientationLookup fd with
  | Except.ok v => Except.ok (some v)
  | Except.error e => if innerHandled e then Except.ok none else Except.error e

/-- The body of `rotate_image_according_to_exif`'s outer `try` (lines
59-81): open the image (raises if the path is missing), bail out if the
pixel data is truncated, then rotate by 180/270/90 degrees for orientation
3/6/8 and save back in place; `img.save` runs exactly when the orientation
is one of 3, 6, 8. -/
def rotate_body (fs : FS) (image_path : String) : Except PyExn FS :=
  match lookupFile fs image_path with
  | none => Except.error PyExn.fileNotFoundError
  | some fd =>
    if fd.truncated then Except.ok fs
    else
      match get_exif_orientation fd with
      | Except.error e => Except.error e
      | Except.ok o =>
        if o = some 3 then Except.ok (setFile fs image_path (applyRotation fd 180))
        else if o = some 6 then Except.ok (setFile fs image_path (applyRotation fd 270))
        else if o = some 8 then Except.ok (setFile fs image_path (applyRotation fd 90))
        else Except.ok fs

/-- `rotate_image_according_to_exif` (lines 47-83): the catch-all
`except Exception` at line 82 logs and returns, leaving the filesystem
unchanged. -/
def rotate_image_according_to_exif (fs : FS) (image_path : String) : FS :=
  match rotate_body fs image_path with
  | Except.ok fs' => fs'
  | Except.error _ => fs

/-- `get_date_taken` (lines 85-112).  If the file exists, `exifread` yields
the `EXIF DateTimeOriginal` tag when present; a successful `strptime` parse
is returned, and any failure (missing tag -- the explicit `raise KeyError`
-- or a `ValueError` from `strptime`) falls back to the creation time.  If
the file does not exist, `open` raises inside the `try`, and the handler's
own `os.path.getctime(path)` raises `FileNotFoundError` again, this time
uncaught. -/
def get_date_taken (fs : FS) (path : String) : Except PyExn PyDateTime :=
  match lookupFile fs path with
  | none => Except.error PyExn.fileNotFoundError
  | some fd =>
    match fd.exifDate with
    | some s =>
      match strptimeExif s with
      | Except.ok d => Except.ok d
      | Except.error _ => Except.ok fd.ctime
    | none => Except.ok fd.ctime

/-- The date `get_date_taken` resolves for an existing file: the parsed
`EXIF DateTimeOriginal` when present and well-formed, the creation time
otherwise. -/
def resolvedDate (fd : FileData) : PyDateTime :=
  match fd.exifDate with
  | some s =>
    match strptimeExif s with
    | Except.ok d => d
    | Except.error _ => fd.ctime
  | none => fd.ctime

/-- The body of `add_relative_path_tag`'s outer `try` (lines 127-140): for a
`.jpg` path, load the EXIF dictionary (raises if the file is missing), read
the UserComment with default `b''`, and write back the comment with
`b"\nRelativePath:" + relative_path` appended; non-`.jpg` paths are logged
and left unchanged. -/
def tag_body (fs : FS) (image_path relative_path : String) : Except PyExn FS :=
  if endsJpgLower image_path then
    match lookupFile fs image_path with
    | none => Except.error PyExn.fileNotFoundError
    | some fd =>
      Except.ok (setFile fs image_path
        (setCommentFD fd (fd.comment ++ "\nRelativePath:" ++ relative_path)))
  else Except.ok fs

/-- `add_relative_path_tag` (lines 114-142): the catch-all `except
Exception` at line 141 logs and returns, leaving the filesystem
unchanged. -/
def add_relative_path_tag (fs : FS) (image_path relative_path : String) : FS :=
  match tag_body fs image_path relative_path with
  | Except.ok fs' => fs'
  | Except.error _ => fs

/-- `process_image` (lines 144-176).  There is no `try/except` in this
function: the pair's second component is the exception escaping the per-file
pipeline, `none` when the call returns normally.  The first component is the
filesystem after the call, including partial effects made before a failing
step. -/
def process_image (fs : FS) (file_path basepath output_path : String) :
    FS × Option PyExn :=
  if endsJpgLower file_path then
    match lookupFile fs file_path with
    | none => (fs, some PyExn.fileNotFoundError)
    | some fd =>
      if fd.size > 100 * 1024 then
        match get_date_taken fs file_path with
        | Except.error e => (fs, some e)
        | Except.ok date_taken =>
          let new_folder := output_path ++ "/" ++ strftimeYMD date_taken
          match createFolderStep fs new_folder with
          | Except.error e => (fs, some e)
          | Except.ok fs1 =>
            let new_file_path := new_folder ++ "/" ++ basename file_path
            match shutil_copy2 fs1 file_path new_file_path with
            | Except.error e => (fs1, some e)
            | Except.ok fs2 =>
              let fs3 := rotate_image_according_to_exif fs2 new_file_path
              let rel := relpath (dirname file_path) basepath
              (add_relative_path_tag fs3 new_file_path rel, none)
      else (fs, none)
  else (fs, none)

/-- `os.walk(basepath)`: every file path below the base directory, collected
into a materialized list before any processing starts (lines 195-198). -/
def walkFiles (fs : FS) (basepath : String) : List String :=
  (fs.files.map Prod.fst).filter fun p => strHasPrefix p (basepath ++ "/")

/-- The destination path `process_image` computes for an existing file:
`output_path/YYYY/MM/DD/<basename>` from the resolved capture date. -/
def destPath (output_path file_path : String) (fd : FileData) : String :=
  (output_path ++ "/" ++ strftimeYMD (resolvedDate fd)) ++ "/" ++ basename file_path

/-- The effect of lines 190-192 (`if not os.path.exists(output_path):
os.makedirs(output_path)`), which cannot raise because the guard precedes
the creation and the run is still single-threaded there. -/
def mkOutputDir (fs : FS) (p : String) : FS :=
  if os_path_exists fs p then fs else ⟨fs.files, p :: fs.folders, fs.denied⟩

/-- `sort_images` (lines 178-204).  All discovered files are submitted to
the pool and every task runs to completion (the executor's shutdown waits
for them), which the model renders as a fold threading the filesystem
through every file; `future.result()` at line 204 re-raises the first
task exception once results are collected, so the pair's second component
carries the first per-file exception, if any. -/
def sort_images (fs : FS) (basepath output_path : String) : FS × Option PyExn :=
  match createFolderStep fs output_path with
  | Except.error e => (fs, some e)
  | Except.ok fs0 =>
    (walkFiles fs0 basepath).foldl
      (fun acc f =>
        ((process_image acc.1 f basepath output_path).1,
         match acc.2 with
         | some e => some e
         | none => (process_image acc.1 f basepath output_path).2))
      (fs0, none)

/-- One worker's state while running the folder-creation step (lines
161-163) against a racing sibling: `sawExists` records the result of its
`os.path.exists` call once made, `done` whether the step finished. -/
structure WorkerSt where
  sawExists : Option Bool
  done : Bool
  deriving DecidableEq, Repr

/-- One atomic OS call of the folder-creation step by one worker: first the
`os.path.exists` check, then -- only if the check saw nothing -- the
`os.makedirs` call, which can raise `FileExistsError`. -/
def workerStep (p : String) (fs : FS) (w : WorkerSt) :
    Except PyExn (FS × WorkerSt) :=
  match w.sawExists with
  | none => Except.ok (fs, ⟨some (os_path_exists fs p), false⟩)
  | some b =>
    if w.done then Except.ok (fs, w)
    else if b then Except.ok (fs, ⟨some b, true⟩)
    else
      match os_makedirs fs p with
      | Except.error e => Except.error e
      | Except.ok fs' => Except.ok (fs', ⟨some b, true⟩)

/-- Run two workers' folder-creation steps under an explicit schedule:
`true` lets worker one take its next atomic OS call, `false` worker two. -/
def runSched (p : String) : List Bool → FS × WorkerSt × WorkerSt →
    Except PyExn (FS × WorkerSt × WorkerSt)
  | [], st => Except.ok st
  | (w :: rest), (fs, w1, w2) =>
    if w then
      match workerStep p fs w1 with
      | Except.error e => Except.error e
      | Except.ok (fs', w1') => runSched p rest (fs', w1', w2)
    else
      match workerStep p fs w2 with
      | Except.error e => Except.error e
      | Except.ok (fs', w2') => runSched p rest (fs', w1, w2')

/-! Helper lemmas about the embedding. -/

theorem strAppend_assoc (a b c : String) : (a ++ b) ++ c = a ++ (b ++ c) := by
  cases a with | mk la =>
  cases b with | mk lb =>
  cases c with | mk lc =>
  exact congrArg String.mk (List.append_assoc la lb lc)

theorem empty_strAppend (s : String) : "" ++ s = s := by
  cases s with | mk l => rfl

theorem chPrefix_append (l t : List Char) : chPrefix l (l ++ t) = true := by
  induction l with
  | nil => rfl
  | cons a as ih => simp [chPrefix, ih]

theorem strHasPrefix_of_append (pre rest : String) :
    strHasPrefix (pre ++ rest) pre = true := by
  cases pre with | mk lp =>
  cases rest with | mk lr =>
  exact chPrefix_append lp lr

theorem strHasPrefix_dest (o s b : String) :
    strHasPrefix ((o ++ "/" ++ s) ++ "/" ++ b) (o ++ "/") = true := by
  have h : (o ++ "/" ++ s) ++ "/" ++ b = (o ++ "/") ++ (s ++ ("/" ++ b)) := by
    rw [strAppend_assoc, strAppend_assoc]
  rw [h]
  exact strHasPrefix_of_append (o ++ "/") (s ++ ("/" ++ b))

theorem ne_of_strHasPrefix_dest (o s b q : String)
    (hq : strHasPrefix q (o ++ "/") = false) :
    q ≠ (o ++ "/" ++ s) ++ "/" ++ b := by
  intro h
  rw [h, strHasPrefix_dest] at hq
  exact Bool.noConfusion hq

theorem lookup_setFile_self (fs : FS) (p : String) (fd : FileData) :
    lookupFile (setFile fs p fd) p = some fd := by
  simp [lookupFile, setFile, lookupAssoc]

theorem lookup_setFile_ne (fs : FS) (p : String) (fd : FileData) (q : String)
    (h : q ≠ p) : lookupFile (setFile fs p fd) q = lookupFile fs q := by
  simp [lookupFile, setFile, lookupAssoc, h]

theorem mkOutputDir_files (fs : FS) (p : String) :
    (mkOutputDir fs p).files = fs.files := by
  unfold mkOutputDir; split <;> rfl

theorem mkOutputDir_denied (fs : FS) (p : String) :
    (mkOutputDir fs p).denied = fs.denied := by
  unfold mkOutputDir; split <;> rfl

theorem lookup_mkOutputDir (fs : FS) (p q : String) :
    lookupFile (mkOutputDir fs p) q = lookupFile fs q := by
  unfold lookupFile; rw [mkOutputDir_files]

theorem createFolderStep_eq (fs : FS) (p : String) :
    createFolderStep fs p = Except.ok (mkOutputDir fs p) := by
  unfold createFolderStep os_makedirs mkOutputDir
  cases h : os_path_exists fs p <;> simp [h]

theorem copy2_ok (fs : FS) (src dst : String) (fd : FileData)
    (h1 : src ≠ dst) (h2 : lookupFile fs src = some fd)
    (h3 : fs.denied.contains dst = false) :
    shutil_copy2 fs src dst = Except.ok (setFile fs dst fd) := by
  unfold lookupFile at h2
  have h3' : ¬ dst ∈ fs.denied := by simpa using h3
  simp [shutil_copy2, h1, h2, h3']

theorem gdt_ok (fs : FS) (p : String) (fd : FileData)
    (h : lookupFile fs p = some fd) :
    get_date_taken fs p = Except.ok (resolvedDate fd) := by
  unfold get_date_taken resolvedDate
  rw [h]
  cases hd : fd.exifDate with
  | none => simp [hd]
  | some s => cases hp : strptimeExif s <;> simp [hd, hp]

theorem resolvedDate_parse (fd : FileData) (s : String) (d : PyDateTime)
    (h1 : fd.exifDate = some s) (h2 : strptimeExif s = Except.ok d) :
    resolvedDate fd = d := by
  simp [resolvedDate, h1, h2]

theorem rotate_cases (fs : FS) (p : String) :
    rotate_image_according_to_exif fs p = fs ∨
    ∃ fd, rotate_image_according_to_exif fs p = setFile fs p fd := by
  unfold rotate_image_according_to_exif rotate_body
  cases hl : lookupFile fs p with
  | none => left; simp
  | some fd =>
    cases ht : fd.truncated with
    | true => left; simp [ht]
    | false =>
      cases ho : get_exif_orientation fd with
      | error e => left; simp [ht, ho]
      | ok o =>
        by_cases h3 : o = some 3
        · right; exact ⟨applyRotation fd 180, by simp [ht, ho, h3]⟩
        · by_cases h6 : o = some 6
          · right; exact ⟨applyRotation fd 270, by simp [ht, ho, h3, h6]⟩
          · by_cases h8 : o = some 8
            · right; exact ⟨applyRotation fd 90, by simp [ht, ho, h3, h6, h8]⟩
            · left; simp [ht, ho, h3, h6, h8]

theorem tag_cases (fs : FS) (p r : String) :
    add_relative_path_tag fs p r = fs ∨
    ∃ fd, add_relative_path_tag fs p r = setFile fs p fd := by
  unfold add_relative_path_tag tag_body
  cases hj : endsJpgLower p with
  | false => exact Or.inl rfl
  | true =>
    simp only [if_true]
    cases hl : lookupFile fs p with
    | none => exact Or.inl rfl
    | some fd => exact Or.inr ⟨_, rfl⟩

theorem rotate_isSome (fs : FS) (p : String)
    (h : (lookupFile fs p).isSome = true) :
    (lookupFile (rotate_image_according_to_exif fs p) p).isSome = true := by
  rcases rotate_cases fs p with hc | ⟨fd, hc⟩
  · rw [hc]; exact h
  · rw [hc, lookup_setFile_self]; rfl

theorem tag_isSome (fs : FS) (p r : String)
    (h : (lookupFile fs p).isSome = true) :
    (lookupFile (add_relative_path_tag fs p r) p).isSome = true := by
  rcases tag_cases fs p r with hc | ⟨fd, hc⟩
  · rw [hc]; exact h
  · rw [hc, lookup_setFile_self]; rfl

theorem rotate_frame (fs : FS) (p q : String) (h : q ≠ p) :
    lookupFile (rotate_image_according_to_exif fs p) q = lookupFile fs q := by
  rcases rotate_cases fs p with hc | ⟨fd, hc⟩
  · rw [hc]
  · rw [hc, lookup_setFile_ne _ _ _ _ h]

theorem tag_frame (fs : FS) (p r q : String) (h : q ≠ p) :
    lookupFile (add_relative_path_tag fs p r) q = lookupFile fs q := by
  rcases tag_cases fs p r with hc | ⟨fd, hc⟩
  · rw [hc]
  · rw [hc, lookup_setFile_ne _ _ _ _ h]

theorem copy2_ok_shape (fs : FS) (src dst : String) (fs' : FS)
    (h : shutil_copy2 fs src dst = Except.ok fs') :
    ∃ fd, fs' = setFile fs dst fd := by
  unfold shutil_copy2 at h
  split at h
  · exact absurd h (by simp)
  · split at h
    · exact absurd h (by simp)
    · split at h
      · exact absurd h (by simp)
      · injection h with h'
        exact ⟨_, h'.symm⟩

theorem process_image_fst_frame (fs : FS) (f b o q : String)
    (hq : strHasPrefix q (o ++ "/") = false) :
    lookupFile (process_image fs f b o).1 q = lookupFile fs q := by
  unfold process_image
  cases hE : endsJpgLower f with
  | false => rfl
  | true =>
    rw [if_pos rfl]
    cases hL : lookupFile fs f with
    | none => rfl
    | some fd =>
      dsimp only
      by_cases hs : fd.size > 100 * 1024
      · rw [if_pos hs]
        cases hD : get_date_taken fs f with
        | error e => rfl
        | ok d =>
          dsimp only
          rw [createFolderStep_eq]
          dsimp only
          cases hC : shutil_copy2 (mkOutputDir fs (o ++ "/" ++ strftimeYMD d)) f
              ((o ++ "/" ++ strftimeYMD d) ++ "/" ++ basename f) with
          | error e => dsimp only; exact lookup_mkOutputDir fs _ q
          | ok fs2 =>
            dsimp only
            obtain ⟨fdc, rfl⟩ := copy2_ok_shape _ _ _ _ hC
            have hne : q ≠ (o ++ "/" ++ strftimeYMD d) ++ "/" ++ basename f :=
              ne_of_strHasPrefix_dest o _ _ q hq
            rw [tag_frame _ _ _ _ hne, rotate_frame _ _ _ hne,
                lookup_setFile_ne _ _ _ _ hne, lookup_mkOutputDir]
      · rw [if_neg hs]

theorem foldl_pair_fst (P : FS → String → FS × Option PyExn) (l : List String) :
    ∀ (st : FS) (e : Option PyExn),
      (l.foldl (fun acc f => ((P acc.1 f).1,
          match acc.2 with
          | some x => some x
          | none => (P acc.1 f).2)) (st, e)).1
        = l.foldl (fun s f => (P s f).1) st := by
  induction l with
  | nil => intro st e; rfl
  | cons a t ih => intro st e; exact ih _ _

theorem foldl_fst_frame (b o q : String) (hq : strHasPrefix q (o ++ "/") = false)
    (l : List String) :
    ∀ st : FS,
      lookupFile (l.foldl (fun s f => (process_image s f b o).1) st) q
        = lookupFile st q := by
  induction l with
  | nil => intro st; rfl
  | cons a t ih =>
    intro st
    have h1 := ih ((process_image st a b o).1)
    rw [List.foldl_cons, h1, process_image_fst_frame st a b o q hq]

theorem daysInMonth_le_31 (y m : Nat) : daysInMonth y m ≤ 31 := by
  unfold daysInMonth
  split_ifs <;> omega

theorem strptimeExif_ok_bounds (s : String) (d : PyDateTime)
    (h : strptimeExif s = Except.ok d) :
    1 ≤ d.month ∧ d.month ≤ 12 ∧ 1 ≤ d.day ∧ d.day ≤ 31 := by
  unfold strptimeExif at h
  split at h
  · split at h
    · split at h
      · split at h
        · rename_i hcond
          injection h with h'
          subst h'
          obtain ⟨-, hmo1, hmo2, hdd1, hdd2, -, -, -⟩ := hcond
          exact ⟨hmo1, hmo2, hdd1, le_trans hdd2 (daysInMonth_le_31 _ _)⟩
        · exact absurd h (by simp)
      · exact absurd h (by simp)
    · exact absurd h (by simp)
  · exact absurd h (by simp)

theorem pad2_length (m : Nat) (h1 : 1 ≤ m) (h2 : m ≤ 31) :
    (pad2 m).length = 2 := by
  interval_cases m <;> decide

theorem tag_eq (fs : FS) (p r : String) (fd : FileData)
    (h : lookupFile fs p = some fd) (hj : endsJpgLower p = true) :
    add_relative_path_tag fs p r
      = setFile fs p (setCommentFD fd (fd.comment ++ "\nRelativePath:" ++ r)) := by
  unfold add_relative_path_tag tag_body
  rw [if_pos hj, h]

/-! Concrete sample files used by the witnesses and counterexamples. -/

/-- A 200000-byte JPEG with no EXIF dictionary and no `DateTimeOriginal`
tag, created 2023-05-10 14:30:00, empty UserComment. -/
def fdPlain : FileData := ⟨200000, ⟨2023, 5, 10, 14, 30, 0⟩, none, none, false, 0, ""⟩

/-- A 300000-byte JPEG with `DateTimeOriginal` "2021:02:03 04:05:06" and
EXIF orientation 6. -/
def fdExif : FileData :=
  ⟨300000, ⟨2020, 1, 1, 0, 0, 0⟩, some "2021:02:03 04:05:06", some ⟨some 6⟩, false, 0, ""⟩

/-- A 500-byte non-image file. -/
def fdSmall : FileData := ⟨500, ⟨2023, 1, 1, 0, 0, 0⟩, none, none, false, 0, ""⟩

/-- A truncated JPEG that nevertheless carries EXIF orientation 3 in its
header. -/
def fdTrunc3 : FileData :=
  ⟨200000, ⟨2022, 1, 1, 0, 0, 0⟩, none, some ⟨some 3⟩, true, 0, ""⟩

/-- A JPEG with EXIF orientation 6, used to exercise the rotation step. -/
def fdOr6 : FileData :=
  ⟨150000, ⟨2021, 1, 1, 0, 0, 0⟩, none, some ⟨some 6⟩, false, 0, ""⟩

/-! The claims. -/

/-- C3 counterexample: at a path where no file exists, `get_date_taken`
raises: `open` fails inside the `try`, and the handler's own
`os.path.getctime` call raises `FileNotFoundError` out of the function,
refuting "the operation never raises" as stated for every file path. -/
theorem c3_counterexample :
    get_date_taken ⟨[], [], []⟩ "/in/ghost.jpg"
      = Except.error PyExn.fileNotFoundError := by decide

/-- C3 (amended): for every path at which the file exists (so the
creation-time stat can succeed), capture-date resolution returns the parsed
EXIF `DateTimeOriginal` when the tag is present and well-formed, and the
file's creation timestamp when the tag is absent or fails to parse; in all
those cases it returns normally instead of raising. -/
theorem c3_amended (fs : FS) (p : String) (fd : FileData)
    (h : lookupFile fs p = some fd) :
    get_date_taken fs p = Except.ok (resolvedDate fd) ∧
    (∀ s d, fd.exifDate = some s → strptimeExif s = Except.ok d →
      get_date_taken fs p = Except.ok d) ∧
    (fd.exifDate = none → get_date_taken fs p = Except.ok fd.ctime) ∧
    (∀ s e, fd.exifDate = some s → strptimeExif s = Except.error e →
      get_date_taken fs p = Except.ok fd.ctime) := by
  have h0 := gdt_ok fs p fd h
  refine ⟨h0, ?_, ?_, ?_⟩
  · intro s d hs hd
    rw [h0, resolvedDate_parse fd s d hs hd]
  · intro hn
    rw [h0]; simp [resolvedDate, hn]
  · intro s e hs he
    rw [h0]; simp [resolvedDate, hs, he]

/-- C3 witness: the amended theorem evaluated on a file whose
`DateTimeOriginal` is "2021:02:03 04:05:06". -/
theorem c3_witness :
    (lookupFile ⟨[("/in/d.jpg", fdExif)], [], []⟩ "/in/d.jpg" = some fdExif) ∧
    get_date_taken ⟨[("/in/d.jpg", fdExif)], [], []⟩ "/in/d.jpg"
      = Except.ok ⟨2021, 2, 3, 4, 5, 6⟩ :=
  ⟨by decide,
   (c3_amended ⟨[("/in/d.jpg", fdExif)], [], []⟩ "/in/d.jpg" fdExif (by decide)).2.1
     "2021:02:03 04:05:06" ⟨2021, 2, 3, 4, 5, 6⟩ rfl (by decide)⟩

/-- C5: tagging appends `\nRelativePath:<path>` to the existing UserComment,
so tagging the same JPEG twice leaves both relative-path strings in the
comment, separated by newlines, in call order. -/
theorem c5_tag_accumulation (fs : FS) (p r1 r2 : String) (fd : FileData)
    (h : lookupFile fs p = some fd) (hj : endsJpgLower p = true) :
    lookupFile (add_relative_path_tag (add_relative_path_tag fs p r1) p r2) p
      = some (setCommentFD fd
          (fd.comment ++ "\nRelativePath:" ++ r1 ++ "\nRelativePath:" ++ r2)) := by
  rw [tag_eq fs p r1 fd h hj]
  rw [tag_eq _ p r2 _ (lookup_setFile_self fs p _) hj]
  rw [lookup_setFile_self]
  rfl

/-- C5 witness: tagging a concrete JPEG with "alpha" then "beta". -/
theorem c5_witness :
    (lookupFile ⟨[("/out/c.jpg", fdPlain)], [], []⟩ "/out/c.jpg" = some fdPlain) ∧
    (endsJpgLower "/out/c.jpg" = true) ∧
    lookupFile
      (add_relative_path_tag
        (add_relative_path_tag ⟨[("/out/c.jpg", fdPlain)], [], []⟩ "/out/c.jpg" "alpha")
        "/out/c.jpg" "beta") "/out/c.jpg"
      = some (setCommentFD fdPlain
          (fdPlain.comment ++ "\nRelativePath:" ++ "alpha" ++ "\nRelativePath:" ++ "beta")) :=
  ⟨by decide, by decide,
   c5_tag_accumulation ⟨[("/out/c.jpg", fdPlain)], [], []⟩ "/out/c.jpg" "alpha" "beta"
     fdPlain (by decide) (by decide)⟩

/-- C7: a file whose name does not end in `.jpg` (case-insensitively), or
whose size is at most 100 KiB, is skipped: `process_image` neither changes
the filesystem nor raises. -/
theorem c7_filter (fs : FS) (f b o : String) (fd : FileData)
    (h : endsJpgLower f = false ∨
         (lookupFile fs f = some fd ∧ fd.size ≤ 100 * 1024)) :
    process_image fs f b o = (fs, none) := by
  rcases h with h | ⟨hl, hs⟩
  · unfold process_image
    rw [h]
    rfl
  · by_cases hE : endsJpgLower f
    · unfold process_image
      rw [if_pos hE, hl]
      dsimp only
      rw [if_neg (by omega)]
    · unfold process_image
      rw [if_neg hE]

/-- C7 witness: a 500-byte `notes.txt` is skipped untouched. -/
theorem c7_witness :
    (endsJpgLower "/in/notes.txt" = false ∨
      (lookupFile ⟨[("/in/notes.txt", fdSmall)], [], []⟩ "/in/notes.txt" = some fdSmall ∧
        fdSmall.size ≤ 100 * 1024)) ∧
    process_image ⟨[("/in/notes.txt", fdSmall)], [], []⟩ "/in/notes.txt" "/in" "/out"
      = (⟨[("/in/notes.txt", fdSmall)], [], []⟩, none) :=
  ⟨Or.inl (by decide),
   c7_filter ⟨[("/in/notes.txt", fdSmall)], [], []⟩ "/in/notes.txt" "/in" "/out" fdSmall
     (Or.inl (by decide))⟩

/-- C9: tagging a JPEG whose UserComment is empty puts a comment that starts
with the newline separator: the `\n` is prepended unconditionally even with
no prior content to separate from. -/
theorem c9_unconditional_newline (fs : FS) (p rel : String) (fd : FileData)
    (h : lookupFile fs p = some fd) (hc : fd.comment = "")
    (hj : endsJpgLower p = true) :
    lookupFile (add_relative_path_tag fs p rel) p
      = some (setCommentFD fd ("\n" ++ "RelativePath:" ++ rel)) := by
  rw [tag_eq fs p rel fd h hj, lookup_setFile_self, hc]
  rfl

/-- C9 witness: tagging a comment-less JPEG with "vacation". -/
theorem c9_witness :
    (lookupFile ⟨[("/out/n.jpg", fdPlain)], [], []⟩ "/out/n.jpg" = some fdPlain) ∧
    (fdPlain.comment = "") ∧
    lookupFile (add_relative_path_tag ⟨[("/out/n.jpg", fdPlain)], [], []⟩ "/out/n.jpg" "vacation")
        "/out/n.jpg"
      = some (setCommentFD fdPlain ("\n" ++ "RelativePath:" ++ "vacation")) :=
  ⟨by decide, by decide,
   c9_unconditional_newline ⟨[("/out/n.jpg", fdPlain)], [], []⟩ "/out/n.jpg" "vacation"
     fdPlain (by decide) (by decide) (by decide)⟩

/-- C10: the rotation and tagging steps never raise -- their bodies run
under catch-all handlers that log and return, leaving the filesystem as it
was on failure.  In particular, for an image with no EXIF dictionary at all,
the orientation lookup raises `TypeError`, which the inner
`except (AttributeError, KeyError, IndexError)` does not cover; the outer
handler absorbs it and the file on disk is unmodified.  Likewise a tagging
call on a missing file is absorbed and changes nothing. -/
theorem c10_no_raise (fs : FS) (p q rel : String) (fd : FileData)
    (h : lookupFile fs p = some fd) (hx : fd.exif = none)
    (ht : fd.truncated = false)
    (hq : lookupFile fs q = none) :
    exifOrientationLookup fd = Except.error PyExn.typeError ∧
    innerHandled PyExn.typeError = false ∧
    get_exif_orientation fd = Except.error PyExn.typeError ∧
    rotate_body fs p = Except.error PyExn.typeError ∧
    rotate_image_according_to_exif fs p = fs ∧
    (endsJpgLower q = true → tag_body fs q rel = Except.error PyExn.fileNotFoundError) ∧
    (endsJpgLower q = true → add_relative_path_tag fs q rel = fs) := by
  have h1 : exifOrientationLookup fd = Except.error PyExn.typeError := by
    unfold exifOrientationLookup; rw [hx]
  have h2 : get_exif_orientation fd = Except.error PyExn.typeError := by
    unfold get_exif_orientation; rw [h1]; rfl
  have h3 : rotate_body fs p = Except.error PyExn.typeError := by
    simp [rotate_body, h, ht, h2]
  have h4 : rotate_image_according_to_exif fs p = fs := by
    unfold rotate_image_according_to_exif; rw [h3]
  have h5 : endsJpgLower q = true → tag_body fs q rel = Except.error PyExn.fileNotFoundError := by
    intro hjq; unfold tag_body; rw [if_pos hjq, hq]
  refine ⟨h1, rfl, h2, h3, h4, h5, ?_⟩
  intro hjq
  unfold add_relative_path_tag
  rw [h5 hjq]

/-- C10 witness: a JPEG with no EXIF dictionary is left unmodified, and
tagging a nonexistent path is absorbed. -/
theorem c10_witness :
    (lookupFile ⟨[("/out/x.jpg", fdPlain)], [], []⟩ "/out/x.jpg" = some fdPlain) ∧
    (fdPlain.exif = none) ∧
    (lookupFile ⟨[("/out/x.jpg", fdPlain)], [], []⟩ "/out/ghost.jpg" = none) ∧
    get_exif_orientation fdPlain = Except.error PyExn.typeError ∧
    innerHandled PyExn.typeError = false ∧
    rotate_image_according_to_exif ⟨[("/out/x.jpg", fdPlain)], [], []⟩ "/out/x.jpg"
      = ⟨[("/out/x.jpg", fdPlain)], [], []⟩ ∧
    add_relative_path_tag ⟨[("/out/x.jpg", fdPlain)], [], []⟩ "/out/ghost.jpg" "rel"
      = ⟨[("/out/x.jpg", fdPlain)], [], []⟩ := by
  have hmain := c10_no_raise ⟨[("/out/x.jpg", fdPlain)], [], []⟩ "/out/x.jpg" "/out/ghost.jpg"
    "rel" fdPlain (by decide) (by decide) (by decide) (by decide)
  exact ⟨by decide, by decide, by decide, hmain.2.2.1, hmain.2.1,
    hmain.2.2.2.2.1, hmain.2.2.2.2.2.2 (by decide)⟩

/-- C4 counterexample: a truncated image carrying orientation 3 in its
header is NOT rotated and NOT overwritten -- `img.load()` fails first and the
step returns early -- refuting the claim as stated for every on-disk image
with orientation value 3. -/
theorem c4_counterexample :
    lookupFile ⟨[("/out/t.jpg", fdTrunc3)], [], []⟩ "/out/t.jpg" = some fdTrunc3 ∧
    fdTrunc3.exif = some ⟨some 3⟩ ∧
    rotate_image_according_to_exif ⟨[("/out/t.jpg", fdTrunc3)], [], []⟩ "/out/t.jpg"
      = ⟨[("/out/t.jpg", fdTrunc3)], [], []⟩ ∧
    fdTrunc3.rotation = 0 := by decide

/-- C4 (amended): for every on-disk image that fully decodes (is not
truncated), orientation 3/6/8 yields a 180/270/90-degree rotation saved in
place, and any other orientation state (other value, tag missing, or no
EXIF dictionary) leaves the file untouched: the file is saved if and only
if a rotation was applied. -/
theorem c4_amended (fs : FS) (p : String) (fd : FileData)
    (h : lookupFile fs p = some fd) (ht : fd.truncated = false) :
    (∀ v : Nat, fd.exif = some ⟨some v⟩ →
      ((v = 3 → rotate_image_according_to_exif fs p
          = setFile fs p (applyRotation fd 180)) ∧
       (v = 6 → rotate_image_according_to_exif fs p
          = setFile fs p (applyRotation fd 270)) ∧
       (v = 8 → rotate_image_according_to_exif fs p
          = setFile fs p (applyRotation fd 90)) ∧
       (v ≠ 3 → v ≠ 6 → v ≠ 8 → rotate_image_according_to_exif fs p = fs))) ∧
    (fd.exif = some ⟨none⟩ → rotate_image_according_to_exif fs p = fs) ∧
    (fd.exif = none → rotate_image_according_to_exif fs p = fs) := by
  refine ⟨?_, ?_, ?_⟩
  · intro v hv
    have ho : get_exif_orientation fd = Except.ok (some v) := by
      simp [get_exif_orientation, exifOrientationLookup, hv]
    refine ⟨?_, ?_, ?_, ?_⟩
    · intro h3; subst h3
      simp [rotate_image_according_to_exif, rotate_body, h, ht, ho]
    · intro h6; subst h6
      simp [rotate_image_according_to_exif, rotate_body, h, ht, ho]
    · intro h8; subst h8
      simp [rotate_image_according_to_exif, rotate_body, h, ht, ho]
    · intro n3 n6 n8
      simp [rotate_image_according_to_exif, rotate_body, h, ht, ho, n3, n6, n8]
  · intro hv
    have ho : get_exif_orientation fd = Except.ok none := by
      simp [get_exif_orientation, exifOrientationLookup, hv, innerHandled]
    simp [rotate_image_according_to_exif, rotate_body, h, ht, ho]
  · intro hv
    have ho : get_exif_orientation fd = Except.error PyExn.typeError := by
      simp [get_exif_orientation, exifOrientationLookup, hv, innerHandled]
    simp [rotate_image_according_to_exif, rotate_body, h, ht, ho]

/-- C4 witness: a decodable JPEG with orientation 6 gets the 270-degree
rotation saved in place. -/
theorem c4_witness :
    (lookupFile ⟨[("/out/r.jpg", fdOr6)], [], []⟩ "/out/r.jpg" = some fdOr6) ∧
    (fdOr6.truncated = false) ∧
    rotate_image_according_to_exif ⟨[("/out/r.jpg", fdOr6)], [], []⟩ "/out/r.jpg"
      = setFile ⟨[("/out/r.jpg", fdOr6)], [], []⟩ "/out/r.jpg" (applyRotation fdOr6 270) :=
  ⟨by decide, by decide,
   (((c4_amended ⟨[("/out/r.jpg", fdOr6)], [], []⟩ "/out/r.jpg" fdOr6
        (by decide) (by decide)).1 6 rfl).2.1) rfl⟩

/-- C6: for a qualifying file whose `DateTimeOriginal` parses to date `d`,
the copy lands under `output_path/<year>/<month>/<day>` with zero-padded
two-digit month and day; the folder part of the destination is a function
of the output root and the capture date only. -/
theorem c6_destination (fs : FS) (f b o s : String) (fd : FileData) (d : PyDateTime)
    (h1 : lookupFile fs f = some fd) (h2 : endsJpgLower f = true)
    (h3 : fd.size > 100 * 1024) (h4 : fd.exifDate = some s)
    (h5 : strptimeExif s = Except.ok d)
    (h6 : fs.denied.contains
        (o ++ "/" ++ (toString d.year ++ "/" ++ pad2 d.month ++ "/" ++ pad2 d.day)
          ++ "/" ++ basename f) = false)
    (h7 : o ++ "/" ++ (toString d.year ++ "/" ++ pad2 d.month ++ "/" ++ pad2 d.day)
          ++ "/" ++ basename f ≠ f) :
    (pad2 d.month).length = 2 ∧ (pad2 d.day).length = 2 ∧
    (lookupFile (process_image fs f b o).1
        (o ++ "/" ++ (toString d.year ++ "/" ++ pad2 d.month ++ "/" ++ pad2 d.day)
          ++ "/" ++ basename f)).isSome = true := by
  obtain ⟨hm1, hm2, hd1, hd2⟩ := strptimeExif_ok_bounds s d h5
  refine ⟨pad2_length d.month hm1 (le_trans hm2 (by omega)),
          pad2_length d.day hd1 hd2, ?_⟩
  show (lookupFile (process_image fs f b o).1
      (o ++ "/" ++ strftimeYMD d ++ "/" ++ basename f)).isSome = true
  have hgd : get_date_taken fs f = Except.ok d := by
    rw [gdt_ok fs f fd h1, resolvedDate_parse fd s d h4 h5]
  unfold process_image
  rw [if_pos h2, h1]
  dsimp only
  rw [if_pos h3, hgd]
  dsimp only
  rw [createFolderStep_eq]
  dsimp only
  have hl1 : lookupFile (mkOutputDir fs (o ++ "/" ++ strftimeYMD d)) f = some fd := by
    rw [lookup_mkOutputDir]; exact h1
  have hden : (mkOutputDir fs (o ++ "/" ++ strftimeYMD d)).denied.contains
      (o ++ "/" ++ strftimeYMD d ++ "/" ++ basename f) = false := by
    rw [mkOutputDir_denied]; exact h6
  have hne : f ≠ o ++ "/" ++ strftimeYMD d ++ "/" ++ basename f := Ne.symm h7
  rw [copy2_ok _ f _ fd hne hl1 hden]
  dsimp only
  apply tag_isSome
  apply rotate_isSome
  rw [lookup_setFile_self]
  rfl

/-- C6 witness: `/in/b.jpg` with capture date 2021-02-03 lands at
`/out/2021/02/03/b.jpg`. -/
theorem c6_witness :
    (lookupFile ⟨[("/in/b.jpg", fdExif)], [], []⟩ "/in/b.jpg" = some fdExif) ∧
    (strptimeExif "2021:02:03 04:05:06" = Except.ok ⟨2021, 2, 3, 4, 5, 6⟩) ∧
    (pad2 2).length = 2 ∧
    (lookupFile (process_image ⟨[("/in/b.jpg", fdExif)], [], []⟩ "/in/b.jpg" "/in" "/out").1
        ("/out" ++ "/" ++ (toString 2021 ++ "/" ++ pad2 2 ++ "/" ++ pad2 3)
          ++ "/" ++ basename "/in/b.jpg")).isSome = true := by
  have hmain := c6_destination ⟨[("/in/b.jpg", fdExif)], [], []⟩ "/in/b.jpg" "/in" "/out"
    "2021:02:03 04:05:06" fdExif ⟨2021, 2, 3, 4, 5, 6⟩
    (by decide) (by decide) (by decide) rfl (by decide) (by decide) (by decide)
  exact ⟨by decide, by decide, hmain.1, hmain.2.2⟩

/-- C1 counterexample: with a single qualifying source file whose
destination write the OS refuses, the copy step's `OSError` is not caught
anywhere in `process_image`; `future.result()` re-raises it out of
`sort_images`, so the batch-level run raises instead of completing, refuting
"an exception at any step is caught and logged and the batch always
completes". -/
theorem c1_counterexample :
    (sort_images ⟨[("/in/a.jpg", fdPlain)], [], ["/out/2023/05/10/a.jpg"]⟩
        "/in" "/out").2 = some PyExn.osError := by decide

/-- C1 (amended): exceptions inside date resolution, orientation correction
and tagging are contained per file (a file whose copy the OS accepts
finishes its pipeline with no escaping exception), and every discovered
file is still processed whatever happened to the others -- the final
filesystem equals the fold of the per-file pipeline over the whole walked
list; but an exception escaping a per-file task (such as the copy step's
`OSError`) is re-raised when results are collected, so the batch run
terminates with that error rather than always completing. -/
theorem c1_amended (fs : FS) (basepath output_path file_path : String) (fd : FileData)
    (h1 : lookupFile fs file_path = some fd)
    (h2 : fs.denied.contains (destPath output_path file_path fd) = false)
    (h3 : destPath output_path file_path fd ≠ file_path) :
    (sort_images fs basepath output_path).1 =
      (walkFiles (mkOutputDir fs output_path) basepath).foldl
        (fun st g => (process_image st g basepath output_path).1)
        (mkOutputDir fs output_path) ∧
    (process_image fs file_path basepath output_path).2 = none := by
  constructor
  · unfold sort_images
    rw [createFolderStep_eq]
    dsimp only
    exact foldl_pair_fst (fun st g => process_image st g basepath output_path) _ _ _
  · by_cases hE : endsJpgLower file_path
    · unfold process_image
      rw [if_pos hE, h1]
      dsimp only
      by_cases hs : fd.size > 100 * 1024
      · rw [if_pos hs, gdt_ok fs file_path fd h1]
        dsimp only
        rw [createFolderStep_eq]
        dsimp only
        have hl1 : lookupFile
            (mkOutputDir fs (output_path ++ "/" ++ strftimeYMD (resolvedDate fd)))
            file_path = some fd := by
          rw [lookup_mkOutputDir]; exact h1
        have hden : (mkOutputDir fs
              (output_path ++ "/" ++ strftimeYMD (resolvedDate fd))).denied.contains
            (output_path ++ "/" ++ strftimeYMD (resolvedDate fd) ++ "/"
              ++ basename file_path) = false := by
          rw [mkOutputDir_denied]; exact h2
        have hne : file_path ≠ output_path ++ "/" ++ strftimeYMD (resolvedDate fd)
            ++ "/" ++ basename file_path := Ne.symm h3
        rw [copy2_ok _ file_path _ fd hne hl1 hden]
      · rw [if_neg hs]
    · unfold process_image
      rw [if_neg hE]

/-- C1 witness: the amended theorem on a one-file tree whose copy the OS
accepts. -/
theorem c1_witness :
    (lookupFile ⟨[("/in/e.jpg", fdPlain)], [], []⟩ "/in/e.jpg" = some fdPlain) ∧
    ((⟨[("/in/e.jpg", fdPlain)], [], []⟩ : FS).denied.contains
        (destPath "/out" "/in/e.jpg" fdPlain) = false) ∧
    (destPath "/out" "/in/e.jpg" fdPlain ≠ "/in/e.jpg") ∧
    ((sort_images ⟨[("/in/e.jpg", fdPlain)], [], []⟩ "/in" "/out").1 =
      (walkFiles (mkOutputDir ⟨[("/in/e.jpg", fdPlain)], [], []⟩ "/out") "/in").foldl
        (fun st g => (process_image st g "/in" "/out").1)
        (mkOutputDir ⟨[("/in/e.jpg", fdPlain)], [], []⟩ "/out")) ∧
    (process_image ⟨[("/in/e.jpg", fdPlain)], [], []⟩ "/in/e.jpg" "/in" "/out").2 = none := by
  have hmain := c1_amended ⟨[("/in/e.jpg", fdPlain)], [], []⟩ "/in" "/out" "/in/e.jpg"
    fdPlain (by decide) (by decide) (by decide)
  exact ⟨by decide, by decide, by decide, hmain.1, hmain.2⟩

/-- C8: a whole-run frame property: `sort_images` writes files only at paths
under `output_path ++ "/"` (the destination of each copy, where rotation and
tagging are applied); every path outside the output subtree -- in particular
every source file -- holds exactly the same data after the run. -/
theorem c8_sources_unmodified (fs : FS) (basepath output_path q : String)
    (hq : strHasPrefix q (output_path ++ "/") = false) :
    lookupFile (sort_images fs basepath output_path).1 q = lookupFile fs q := by
  unfold sort_images
  rw [createFolderStep_eq]
  dsimp only
  rw [foldl_pair_fst (fun st g => process_image st g basepath output_path)]
  rw [foldl_fst_frame basepath output_path q hq]
  exact lookup_mkOutputDir fs output_path q

/-- C8 witness: the source `/in/a.jpg` is byte-identical after a full run. -/
theorem c8_witness :
    (strHasPrefix "/in/a.jpg" ("/out" ++ "/") = false) ∧
    lookupFile (sort_images ⟨[("/in/a.jpg", fdPlain)], [], []⟩ "/in" "/out").1 "/in/a.jpg"
      = lookupFile ⟨[("/in/a.jpg", fdPlain)], [], []⟩ "/in/a.jpg" :=
  ⟨by decide,
   c8_sources_unmodified ⟨[("/in/a.jpg", fdPlain)], [], []⟩ "/in" "/out" "/in/a.jpg"
     (by decide)⟩

/-- C2: the folder-creation step is an unguarded check-then-act.  Invoked
twice sequentially it is idempotent: no error, exactly one folder.  But in
the interleaving where both workers pass the `os.path.exists` check before
either calls `os.makedirs`, the second `os.makedirs` -- called without
`exist_ok` -- raises `FileExistsError`: the code does not treat "already
exists" as success under concurrency, violating the claim. -/
theorem c2_race_bug :
    ((createFolderStep ⟨[], [], []⟩ "/out/2023/05/10").bind
        (fun fs1 => createFolderStep fs1 "/out/2023/05/10")
      = Except.ok ⟨[], ["/out/2023/05/10"], []⟩) ∧
    (runSched "/out/2023/05/10" [true, true, false, false]
        (⟨[], [], []⟩, ⟨none, false⟩, ⟨none, false⟩)
      = Except.ok (⟨[], ["/out/2023/05/10"], []⟩, ⟨some false, true⟩, ⟨some true, true⟩)) ∧
    (runSched "/out/2023/05/10" [true, false, true, false]
        (⟨[], [], []⟩, ⟨none, false⟩, ⟨none, false⟩)
      = Except.error PyExn.fileExistsError) := by decide

end SortImages
